import Mathlib

/-!
Verification of the `grounded` crate (modules `irq_sharing` and `uninit`).

The `irq_sharing` module is embedded as sequential state passing: a
`Global T` is the mutex-guarded `Option T` it owns (all accesses in the
source happen inside a critical section, so the sequential model is the
per-critical-section semantics), and an `Interrupt T` is its local
`Option T`.  A panic (`Option.unwrap` on `None`) is modelled as
`Except.error` carrying the states as they stand at the panic point.

The `uninit` module is embedded over an address-indexed memory: a pointer
is an element-scaled address, memory maps addresses to `Option T`
(`none` = uninitialized, mirroring `MaybeUninit`), and a cell is its base
pointer; the `MaybeUninit` contents live in the external memory.
-/

namespace Grounded

/-- `Global<T>`: `critical_section::Mutex<RefCell<Option<T>>>`, modelled as
the guarded optional. -/
structure Global (T : Type) where
  inner : Option T
  deriving DecidableEq, Repr

/-- `Global::empty()`: a new, empty, object. -/
def Global.empty {T : Type} : Global T := ⟨none⟩

/-- `Global::load(value)`: `self.inner.borrow(cs).replace(Some(value))` inside
a critical section; returns the old value and the updated global. -/
def Global.load {T : Type} (self : Global T) (value : T) : Option T × Global T :=
  (self.inner, ⟨some value⟩)

/-- `Interrupt<T>`: the context-local cell, holding `inner : Option<T>`. -/
structure Interrupt (T : Type) where
  inner : Option T
  deriving DecidableEq, Repr

/-- `Interrupt::empty()`: a new, empty, object. -/
def Interrupt.empty {T : Type} : Interrupt T := ⟨none⟩

/-- `Interrupt::get_or_init_with(&mut self, global)`:
`self.inner.get_or_insert_with(|| cs { global.inner.borrow(cs).replace(None).unwrap() })`.
If the local cell holds a value the closure is not run and the global is
untouched.  Otherwise the global's optional is replaced by `None`; if it
held `some v`, `v` is inserted locally and returned; if it held `none`,
`unwrap` panics — modelled as `Except.error` carrying the cell and global
states at the panic (`get_or_insert_with` has not inserted, and
`replace(None)` left the empty global empty). -/
def Interrupt.get_or_init_with {T : Type} (self : Interrupt T) (global : Global T) :
    Except (Interrupt T × Global T) (T × Interrupt T × Global T) :=
  match self.inner with
  | some x => .ok (x, ⟨some x⟩, global)
  | none =>
    match global.inner with
    | some v => .ok (v, ⟨some v⟩, ⟨none⟩)
    | none => .error (⟨none⟩, ⟨none⟩)

/-- A raw pointer `*mut T`, modelled as an element-scaled address. -/
structure Ptr (T : Type) where
  addr : Nat
  deriving DecidableEq, Repr

/-- Pointer arithmetic `ptr.add(n)` (element-scaled, as in Rust). -/
def Ptr.add {T : Type} (p : Ptr T) (n : Nat) : Ptr T := ⟨p.addr + n⟩

/-- Null check: the null pointer is address 0. -/
def Ptr.isNull {T : Type} (p : Ptr T) : Bool := p.addr == 0

/-- Memory for values of type `T`, indexed by element-scaled addresses;
`none` models an uninitialized (`MaybeUninit`) slot. -/
def Mem (T : Type) : Type := Nat → Option T

/-- `ptr.write(v)`: store `v` at the pointed-to slot. -/
def Mem.write {T : Type} (m : Mem T) (p : Ptr T) (v : T) : Mem T :=
  fun a => if a = p.addr then some v else m a

/-- Dereference a pointer (`*p` / reading through a reference at `p`);
`none` when the slot is uninitialized. -/
def Mem.read {T : Type} (m : Mem T) (p : Ptr T) : Option T := m p.addr

/-- `GroundedCell<T>`: `UnsafeCell<MaybeUninit<T>>`.  The cell is identified
by the base pointer of its (static) storage; the possibly-uninitialized
contents live in the external `Mem`. -/
structure GroundedCell (T : Type) where
  base : Ptr T

/-- `GroundedCell::get()`: casts the `UnsafeCell`/`MaybeUninit` pointer to
`*mut T`, i.e. the base pointer of the storage. -/
def GroundedCell.get {T : Type} (self : GroundedCell T) : Ptr T := self.base

/-- `GroundedArrayCell<T, N>`: `UnsafeCell<MaybeUninit<[T; N]>>`, identified
by the base pointer of its contiguous `N`-element storage. -/
structure GroundedArrayCell (T : Type) (N : Nat) where
  base : Ptr T

/-- `GroundedArrayCell::as_mut_ptr()`: casts down to `*mut T`, the starting
pointer of the contained `[T; N]`. -/
def GroundedArrayCell.as_mut_ptr {T : Type} {N : Nat} (self : GroundedArrayCell T N) :
    Ptr T := self.base

/-- `GroundedArrayCell::get_ptr_len()`: `(self.as_mut_ptr(), N)`. -/
def GroundedArrayCell.get_ptr_len {T : Type} {N : Nat} (self : GroundedArrayCell T N) :
    Ptr T × Nat := (self.as_mut_ptr, N)

/-- `GroundedArrayCell::get_element_unchecked(offset)`:
`&*self.as_mut_ptr().add(offset)` — a shared reference, modelled as the
address it points at. -/
def GroundedArrayCell.get_element_unchecked {T : Type} {N : Nat}
    (self : GroundedArrayCell T N) (offset : Nat) : Ptr T :=
  self.as_mut_ptr.add offset

/-- `GroundedArrayCell::get_element_mut_unchecked(offset)`:
`&mut *self.as_mut_ptr().add(offset)`. -/
def GroundedArrayCell.get_element_mut_unchecked {T : Type} {N : Nat}
    (self : GroundedArrayCell T N) (offset : Nat) : Ptr T :=
  self.as_mut_ptr.add offset

/-- `GroundedArrayCell::get_subslice_unchecked(offset, len)`:
`slice::from_raw_parts(self.as_mut_ptr().add(offset), len)` — a slice,
modelled as its data pointer and length. -/
def GroundedArrayCell.get_subslice_unchecked {T : Type} {N : Nat}
    (self : GroundedArrayCell T N) (offset len : Nat) : Ptr T × Nat :=
  (self.as_mut_ptr.add offset, len)

/-- `GroundedArrayCell::get_subslice_mut_unchecked(offset, len)`:
`slice::from_raw_parts_mut(self.as_mut_ptr().add(offset), len)`. -/
def GroundedArrayCell.get_subslice_mut_unchecked {T : Type} {N : Nat}
    (self : GroundedArrayCell T N) (offset len : Nat) : Ptr T × Nat :=
  (self.as_mut_ptr.add offset, len)

/-- The address of element `k` of a slice `(data, len)`: `data.add(k)`
(how `&slice[k]` resolves for a `from_raw_parts` slice). -/
def sliceElemPtr {T : Type} (s : Ptr T × Nat) (k : Nat) : Ptr T := s.1.add k

/-- The write loop of `initialize_all_copied`: starting at `ptr`, while
`ptr != end` do `ptr.write(val); ptr = ptr.add(1)`.  `count` is the number
of remaining iterations (`end - ptr`); pointer arithmetic inside an
allocation does not wrap, so the loop runs exactly `count` times. -/
def writeAllCopied {T : Type} (m : Mem T) (p : Ptr T) (count : Nat) (val : T) : Mem T :=
  match count with
  | 0 => m
  | n + 1 => writeAllCopied (m.write p val) (p.add 1) n val

/-- `GroundedArrayCell::initialize_all_copied(val)`: runs the write loop
over the whole range `(ptr, len) = self.get_ptr_len()`. -/
def GroundedArrayCell.initialize_all_copied {T : Type} {N : Nat}
    (self : GroundedArrayCell T N) (m : Mem T) (val : T) : Mem T :=
  writeAllCopied m self.get_ptr_len.1 self.get_ptr_len.2 val

/-- The write loop of `initialize_all_with`: the `FnMut` closure is
modelled as a state-passing generator `f : S → T × S`; each iteration does
`ptr.write(f()); ptr = ptr.add(1)`.  Returns the memory and the closure's
final state. -/
def writeAllWith {T S : Type} (m : Mem T) (p : Ptr T) (count : Nat)
    (f : S → T × S) (s : S) : Mem T × S :=
  match count with
  | 0 => (m, s)
  | n + 1 => writeAllWith (m.write p (f s).1) (p.add 1) n f (f s).2

/-- `GroundedArrayCell::initialize_all_with(f)`: runs the stateful write
loop over the whole range `(ptr, len) = self.get_ptr_len()`. -/
def GroundedArrayCell.initialize_all_with {T S : Type} {N : Nat}
    (self : GroundedArrayCell T N) (m : Mem T) (f : S → T × S) (s : S) : Mem T × S :=
  writeAllWith m self.get_ptr_len.1 self.get_ptr_len.2 f s

/-- The counting generator of the spec's property: produces `s, s+1, s+2, ...`. -/
def countingGen : Nat → Nat × Nat := fun s => (s, s + 1)

/-- Addresses strictly below the loop's starting pointer are untouched by
the copy-initializing write loop. -/
theorem writeAllCopied_lower {T : Type} :
    ∀ (count : Nat) (m : Mem T) (p : Ptr T) (val : T) (a : Nat), a < p.addr →
      writeAllCopied m p count val a = m a := by
  intro count
  induction count with
  | zero => intro m p val a _; rfl
  | succ n ih =>
    intro m p val a h
    calc writeAllCopied m p (n + 1) val a
        = writeAllCopied (m.write p val) (p.add 1) n val a := rfl
      _ = (m.write p val) a := ih _ _ _ _ (by simp only [Ptr.add]; omega)
      _ = m a := by simp only [Mem.write]; rw [if_neg (by omega)]

/-- Every position `i < count` holds `val` after the copy-initializing
write loop starting at `p` runs `count` iterations. -/
theorem writeAllCopied_read {T : Type} :
    ∀ (count : Nat) (m : Mem T) (p : Ptr T) (val : T) (i : Nat), i < count →
      writeAllCopied m p count val (p.addr + i) = some val := by
  intro count
  induction count with
  | zero => intro _ _ _ _ h; omega
  | succ n ih =>
    intro m p val i h
    cases i with
    | zero =>
      calc writeAllCopied m p (n + 1) val (p.addr + 0)
          = writeAllCopied (m.write p val) (p.add 1) n val p.addr := rfl
        _ = (m.write p val) p.addr :=
            writeAllCopied_lower n _ _ _ _ (by simp only [Ptr.add]; omega)
        _ = some val := by simp [Mem.write]
    | succ j =>
      calc writeAllCopied m p (n + 1) val (p.addr + (j + 1))
          = writeAllCopied (m.write p val) (p.add 1) n val ((p.add 1).addr + j) := by
            simp only [Ptr.add]; rw [show p.addr + (j + 1) = p.addr + 1 + j by omega]; rfl
        _ = some val := ih _ _ _ _ (by omega)

/-- Addresses strictly below the loop's starting pointer are untouched by
the closure-driven write loop. -/
theorem writeAllWith_lower {T S : Type} :
    ∀ (count : Nat) (m : Mem T) (p : Ptr T) (f : S → T × S) (s : S) (a : Nat), a < p.addr →
      (writeAllWith m p count f s).1 a = m a := by
  intro count
  induction count with
  | zero => intro m p f s a _; rfl
  | succ n ih =>
    intro m p f s a h
    calc (writeAllWith m p (n + 1) f s).1 a
        = (writeAllWith (m.write p (f s).1) (p.add 1) n f (f s).2).1 a := rfl
      _ = (m.write p (f s).1) a := ih _ _ _ _ _ (by simp only [Ptr.add]; omega)
      _ = m a := by simp only [Mem.write]; rw [if_neg (by omega)]

/-- With the counting generator started at `s`, position `i < count` holds
`s + i` after the closure-driven write loop: the closure is invoked once
per element, in index order. -/
theorem writeAllWith_counting_read :
    ∀ (count : Nat) (m : Mem Nat) (p : Ptr Nat) (s : Nat) (i : Nat), i < count →
      (writeAllWith m p count countingGen s).1 (p.addr + i) = some (s + i) := by
  intro count
  induction count with
  | zero => intro _ _ _ _ h; omega
  | succ n ih =>
    intro m p s i h
    cases i with
    | zero =>
      calc (writeAllWith m p (n + 1) countingGen s).1 (p.addr + 0)
          = (writeAllWith (m.write p s) (p.add 1) n countingGen (s + 1)).1 p.addr := rfl
        _ = (m.write p s) p.addr :=
            writeAllWith_lower n _ _ _ _ _ (by simp only [Ptr.add]; omega)
        _ = some (s + 0) := by simp [Mem.write]
    | succ j =>
      calc (writeAllWith m p (n + 1) countingGen s).1 (p.addr + (j + 1))
          = (writeAllWith (m.write p s) (p.add 1) n countingGen (s + 1)).1
              ((p.add 1).addr + j) := by
            simp only [Ptr.add]; rw [show p.addr + (j + 1) = p.addr + 1 + j by omega]; rfl
        _ = some (s + 1 + j) := ih _ _ _ _ (by omega)
        _ = some (s + (j + 1)) := by rw [Nat.add_assoc, Nat.add_comm 1 j]

/-- The counting generator's final state after the closure-driven write
loop is `s + count`: the closure is invoked exactly `count` times. -/
theorem writeAllWith_counting_state :
    ∀ (count : Nat) (m : Mem Nat) (p : Ptr Nat) (s : Nat),
      (writeAllWith m p count countingGen s).2 = s + count := by
  intro count
  induction count with
  | zero => intro m p s; rfl
  | succ n ih =>
    intro m p s
    calc (writeAllWith m p (n + 1) countingGen s).2
        = (writeAllWith (m.write p s) (p.add 1) n countingGen (s + 1)).2 := rfl
      _ = s + 1 + n := ih _ _ _
      _ = s + (n + 1) := by omega

end Grounded

open Grounded

/-- C1: for every global slot loaded with a value `v` and an empty local
claim cell, the first `get_or_init_with` call returns exactly `v` (storing
it in the cell), and afterwards the slot holds no value — the claim takes
the value out, leaving the slot empty. -/
theorem C1_first_claim_takes_loaded_value {T : Type} (g : Global T) (v : T) :
    Interrupt.empty.get_or_init_with (g.load v).2 =
      .ok (v, ⟨some v⟩, Global.empty) := rfl

/-- C2: `get_or_init_with` on an empty claim cell against a slot holding no
value (e.g. never loaded) panics — modelled as `Except.error` — and in
particular returns no value. -/
theorem C2_claim_on_empty_slot_panics {T : Type} :
    (Interrupt.empty.get_or_init_with (Global.empty (T := T)) =
        .error (Interrupt.empty, Global.empty)) ∧
      ∀ r : T × Interrupt T × Global T,
        Interrupt.empty.get_or_init_with (Global.empty (T := T)) ≠ .ok r := by
  refine ⟨rfl, fun r h => ?_⟩
  simp [Interrupt.get_or_init_with, Interrupt.empty, Global.empty] at h

/-- C3: `load` on a never-loaded slot returns `none` as the previous
value; `load v2` after `load v1` returns `some v1`; and in general each
`load` returns the previously stored optional and fully replaces it with
`Some` of the new value. -/
theorem C3_load_replaces_and_returns_previous {T : Type} (v v1 v2 : T) (g : Global T) :
    (Global.empty.load v).1 = none ∧
      ((Global.empty.load v1).2.load v2).1 = some v1 ∧
      g.load v = (g.inner, ⟨some v⟩) :=
  ⟨rfl, rfl, rfl⟩

/-- C4: a claim cell already holding `x` returns `x` from every
`get_or_init_with` call and leaves the global slot completely unchanged;
in particular, loading a different value `w` into the slot between calls
does not change what the call returns. -/
theorem C4_claim_is_stable_and_leaves_slot_untouched {T : Type} (x w : T) (g : Global T) :
    (Interrupt.get_or_init_with ⟨some x⟩ g = .ok (x, ⟨some x⟩, g)) ∧
      Interrupt.get_or_init_with ⟨some x⟩ (g.load w).2 =
        .ok (x, ⟨some x⟩, (g.load w).2) :=
  ⟨rfl, rfl⟩

/-- C5: the bulk initializers write every element in index order:
`initialize_all_copied val` leaves every element of `[0, N)` equal to
`val`; `initialize_all_with` with the counting generator started at `0`
leaves element `i` equal to `i` and invokes the generator exactly `N`
times (final counter state `N`), once per element in index order. -/
theorem C5_bulk_initializers {T : Type} {N : Nat} (c : GroundedArrayCell T N)
    (m : Mem T) (val : T) (c0 : GroundedArrayCell Nat N) (m0 : Mem Nat)
    (i : Nat) (h : i < N) :
    (c.initialize_all_copied m val).read (c.get_element_unchecked i) = some val ∧
      (c0.initialize_all_with m0 countingGen 0).1.read (c0.get_element_unchecked i) =
        some i ∧
      (c0.initialize_all_with m0 countingGen 0).2 = N := by
  refine ⟨?_, ?_, ?_⟩
  · exact writeAllCopied_read N m c.base val i h
  · have := writeAllWith_counting_read N m0 c0.base 0 i h
    simpa using this
  · have := writeAllWith_counting_state N m0 c0.base 0
    simpa using this

/-- C5 witness: instantiated at `N = 4`, base address `5`, value `7`,
index `2`, on initially uninitialized memory. -/
theorem C5_bulk_initializers_witness :
    (2 : Nat) < 4 ∧
      (((⟨⟨5⟩⟩ : GroundedArrayCell Nat 4).initialize_all_copied (fun _ => none) 7).read
          ((⟨⟨5⟩⟩ : GroundedArrayCell Nat 4).get_element_unchecked 2) = some 7 ∧
        ((⟨⟨5⟩⟩ : GroundedArrayCell Nat 4).initialize_all_with (fun _ => none)
              countingGen 0).1.read
            ((⟨⟨5⟩⟩ : GroundedArrayCell Nat 4).get_element_unchecked 2) = some 2 ∧
        ((⟨⟨5⟩⟩ : GroundedArrayCell Nat 4).initialize_all_with (fun _ => none)
              countingGen 0).2 = 4) :=
  ⟨by decide, C5_bulk_initializers ⟨⟨5⟩⟩ (fun _ => none) 7 ⟨⟨5⟩⟩ (fun _ => none) 2 (by decide)⟩

/-- C6: for every `offset < N`, writing a value through the base pointer
at that offset and reading it back through `get_element_unchecked offset`
yields the identical value — the element accessor addresses the same slot
as base-pointer arithmetic. -/
theorem C6_base_pointer_roundtrip {T : Type} {N : Nat} (c : GroundedArrayCell T N)
    (m : Mem T) (v : T) (offset : Nat) (h : offset < N) :
    (m.write (c.as_mut_ptr.add offset) v).read (c.get_element_unchecked offset) =
      some v := by
  simp [Mem.write, Mem.read, GroundedArrayCell.get_element_unchecked,
    GroundedArrayCell.as_mut_ptr, Ptr.add]

/-- C6 witness: instantiated at `N = 4`, base address `5`, offset `3`,
value `11`, on initially uninitialized memory. -/
theorem C6_base_pointer_roundtrip_witness :
    (3 : Nat) < 4 ∧
      Mem.read
        (Mem.write (fun _ => none) ((⟨⟨5⟩⟩ : GroundedArrayCell Nat 4).as_mut_ptr.add 3) 11)
        ((⟨⟨5⟩⟩ : GroundedArrayCell Nat 4).get_element_unchecked 3) = some 11 :=
  ⟨by decide, C6_base_pointer_roundtrip ⟨⟨5⟩⟩ (fun _ => none) 11 3 (by decide)⟩

/-- C7: for `offset + len ≤ N` and `k < len`, element `k` of the slice
returned by `get_subslice_unchecked offset len` is the same storage slot
(the same address) as `get_element_unchecked (offset + k)`, and likewise
for the mutable variants. -/
theorem C7_subslice_aliases_elements {T : Type} {N : Nat} (c : GroundedArrayCell T N)
    (offset len k : Nat) (hlen : offset + len ≤ N) (hk : k < len) :
    sliceElemPtr (c.get_subslice_unchecked offset len) k =
        c.get_element_unchecked (offset + k) ∧
      sliceElemPtr (c.get_subslice_mut_unchecked offset len) k =
        c.get_element_mut_unchecked (offset + k) := by
  constructor <;>
    simp [sliceElemPtr, GroundedArrayCell.get_subslice_unchecked,
      GroundedArrayCell.get_subslice_mut_unchecked,
      GroundedArrayCell.get_element_unchecked,
      GroundedArrayCell.get_element_mut_unchecked,
      GroundedArrayCell.as_mut_ptr, Ptr.add, Nat.add_assoc]

/-- C7 witness: instantiated at `N = 8`, base address `5`, `offset = 2`,
`len = 4`, `k = 1`. -/
theorem C7_subslice_aliases_elements_witness :
    ((2 : Nat) + 4 ≤ 8 ∧ (1 : Nat) < 4) ∧
      (sliceElemPtr ((⟨⟨5⟩⟩ : GroundedArrayCell Nat 8).get_subslice_unchecked 2 4) 1 =
          (⟨⟨5⟩⟩ : GroundedArrayCell Nat 8).get_element_unchecked (2 + 1) ∧
        sliceElemPtr ((⟨⟨5⟩⟩ : GroundedArrayCell Nat 8).get_subslice_mut_unchecked 2 4) 1 =
          (⟨⟨5⟩⟩ : GroundedArrayCell Nat 8).get_element_mut_unchecked (2 + 1)) :=
  ⟨⟨by decide, by decide⟩, C7_subslice_aliases_elements ⟨⟨5⟩⟩ 2 4 1 (by decide) (by decide)⟩

/-- C8: for cells placed at a non-null (static) base address, `get`,
`as_mut_ptr` and `get_ptr_len` return non-null pointers, and the length
returned by `get_ptr_len` is exactly the declared capacity `N`. -/
theorem C8_accessors_nonnull_and_len {T : Type} {N : Nat} (c1 : GroundedCell T)
    (c : GroundedArrayCell T N) (h1 : c1.base.addr ≠ 0) (h : c.base.addr ≠ 0) :
    c1.get.isNull = false ∧ c.as_mut_ptr.isNull = false ∧
      c.get_ptr_len.1.isNull = false ∧ c.get_ptr_len.2 = N := by
  have e1 : c1.get.isNull = false := by
    simp only [Ptr.isNull, GroundedCell.get, beq_eq_false_iff_ne, ne_eq]
    exact h1
  have e2 : c.as_mut_ptr.isNull = false := by
    simp only [Ptr.isNull, GroundedArrayCell.as_mut_ptr, beq_eq_false_iff_ne, ne_eq]
    exact h
  exact ⟨e1, e2, e2, rfl⟩

/-- C8 witness: a single-value cell at address `5` and an array cell of
capacity `4` at address `9`. -/
theorem C8_accessors_nonnull_and_len_witness :
    (((⟨⟨5⟩⟩ : GroundedCell Nat).base.addr ≠ 0 ∧
        (⟨⟨9⟩⟩ : GroundedArrayCell Nat 4).base.addr ≠ 0)) ∧
      ((⟨⟨5⟩⟩ : GroundedCell Nat).get.isNull = false ∧
        (⟨⟨9⟩⟩ : GroundedArrayCell Nat 4).as_mut_ptr.isNull = false ∧
        (⟨⟨9⟩⟩ : GroundedArrayCell Nat 4).get_ptr_len.1.isNull = false ∧
        (⟨⟨9⟩⟩ : GroundedArrayCell Nat 4).get_ptr_len.2 = 4) :=
  ⟨⟨by decide, by decide⟩, C8_accessors_nonnull_and_len ⟨⟨5⟩⟩ ⟨⟨9⟩⟩ (by decide) (by decide)⟩

/-- C9: the slot can be re-armed after a claim — a first claim consumes
the loaded `v1` and empties the slot; a subsequent `load v2` returns
`none` as previous value and stores `some v2`; and a fresh empty cell's
first claim then succeeds and returns `v2`. -/
theorem C9_slot_rearm_after_claim {T : Type} (g : Global T) (v1 v2 : T) :
    Interrupt.empty.get_or_init_with (g.load v1).2 =
        .ok (v1, ⟨some v1⟩, Global.empty) ∧
      Global.empty.load v2 = (none, ⟨some v2⟩) ∧
      Interrupt.empty.get_or_init_with (Global.empty.load v2).2 =
        .ok (v2, ⟨some v2⟩, Global.empty) :=
  ⟨rfl, rfl, rfl⟩

/-- C10: when a claim on an empty cell against an empty slot panics, both
states are unchanged (the cell still empty, the slot still `none`), so a
later `load v` on the slot followed by `get_or_init_with` on the same
cell succeeds and returns `v`. -/
theorem C10_failed_claim_preserves_states {T : Type} (v : T) :
    Interrupt.empty.get_or_init_with (Global.empty (T := T)) =
        .error (Interrupt.empty, Global.empty) ∧
      Interrupt.empty.get_or_init_with (Global.empty.load v).2 =
        .ok (v, ⟨some v⟩, Global.empty) :=
  ⟨rfl, rfl⟩
